import Mathlib

/-!
Verification of the voice-ai-backend gateway (src/server.js).

The server exposes two POST routes, `/api/stt` and `/api/openai`, each of
which validates a minimal input shape, issues one upstream HTTP call via
axios, and maps the upstream result to a JSON response.  We embed the two
route handlers as pure Lean functions from the inbound request and the
outcome of the single upstream call to the list of outbound calls issued
and the HTTP response produced.  JavaScript values are modelled by an
inductive `JsValue` with JS truthiness and property-access semantics
(property access on `undefined`/`null` throws; elsewhere a missing
property reads as `undefined`), which the handlers rely on.
-/

namespace VoiceAI

/-- A JavaScript value as it appears in request/response bodies.  Numbers
are modelled as integers (no claim involves fractional body values). -/
inductive JsValue where
  | undefined : JsValue
  | null : JsValue
  | bool : Bool → JsValue
  | num : Int → JsValue
  | str : String → JsValue
  | arr : List JsValue → JsValue
  | obj : List (String × JsValue) → JsValue

/-- JS truthiness, as used by `if (!req.file)` and `if (!question)`. -/
def truthy : JsValue → Bool
  | .undefined => false
  | .null => false
  | .bool b => b
  | .num n => n != 0
  | .str s => s != ""
  | .arr _ => true
  | .obj _ => true

/-- Whether a value is the JS `undefined`. -/
def JsValue.isUndefined : JsValue → Bool
  | .undefined => true
  | _ => false

/-- Look a key up in an object field list; a missing key reads as
`undefined`, as in JS. -/
def lookupField : List (String × JsValue) → String → JsValue
  | [], _ => .undefined
  | (k, v) :: rest, key => if k == key then v else lookupField rest key

/-- Non-throwing property read: `undefined` on every non-object value
(JS boxes primitives; none of the accessed keys exist on them). -/
def JsValue.getField : JsValue → String → JsValue
  | .obj fs, k => lookupField fs k
  | _, _ => .undefined

/-- Property access `v.k` as an operation that can throw: reading a
property of `undefined` or `null` raises a TypeError. -/
def getProp : JsValue → String → Except String JsValue
  | .undefined, k => .error ("Cannot read properties of undefined (reading " ++ k ++ ")")
  | .null, k => .error ("Cannot read properties of null (reading " ++ k ++ ")")
  | v, k => .ok (v.getField k)

/-- Index access `v[i]` as an operation that can throw, mirroring
`getProp`: out-of-range array reads give `undefined`. -/
def getIndex : JsValue → Nat → Except String JsValue
  | .undefined, _ => .error "Cannot read properties of undefined (reading 0)"
  | .null, _ => .error "Cannot read properties of null (reading 0)"
  | .arr xs, i => .ok ((xs.get? i).getD .undefined)
  | v, i => .ok (v.getField (toString i))

/-- `res.json` serialises with `JSON.stringify`, which drops object keys
whose value is `undefined`. -/
def jsonBody (fields : List (String × JsValue)) : JsValue :=
  .obj (fields.filter (fun p => !p.2.isUndefined))

/-- The HTTP response the handler sends. -/
structure HttpResponse where
  status : Nat
  body : JsValue

/-- Outcome of the single `axios.post` call: a 2xx response with parsed
body `data`, a non-2xx response (axios rejects with `error.response.data`
holding the upstream body), or a network-level failure (axios rejects
with only `error.message`). -/
inductive AxiosOutcome where
  | success (data : JsValue)
  | httpError (status : Nat) (data : JsValue)
  | networkError (message : String)

/-- The uploaded file multer places on `req.file`. -/
structure UploadedFile where
  buffer : List Nat
  mimetype : String

/-- Inbound request to `/api/stt`: multer leaves `req.file` unset when no
file field named `audio` is present. -/
structure SttRequest where
  file : Option UploadedFile

/-- The outbound multipart call built by the `/api/stt` handler. -/
structure SttCall where
  url : String
  fileBuffer : List Nat
  filename : String
  contentType : String
  model : String
  authHeader : String

/-- A chat message in the outbound chat-completion body. -/
structure ChatMessage where
  role : String
  content : JsValue

/-- The outbound JSON call built by the `/api/openai` handler. -/
structure ChatCall where
  url : String
  model : String
  messages : List ChatMessage
  temperature : ℚ
  max_tokens : Nat
  authHeader : String

/-- Inbound request to `/api/openai`: `req.body` as parsed by
`express.json()`. -/
structure OpenAiRequest where
  body : JsValue

/-- The `catch` branches compute `details` as
`error.response ? error.response.data : error.message`. -/
def failureDetails : AxiosOutcome → String → JsValue
  | .success _, localMsg => .str localMsg
  | .httpError _ data, _ => data
  | .networkError msg, _ => .str msg

/-- `app.post('/api/stt', ...)` from src/server.js, as a function of the
request and the outcome of the single upstream call.  Returns the list of
outbound calls actually issued together with the HTTP response. -/
def sttHandler (apiKey : String) (req : SttRequest) (upstream : AxiosOutcome) :
    List SttCall × HttpResponse :=
  match req.file with
  | none => ([], ⟨400, .obj [("error", .str "No audio file provided.")]⟩)
  | some f =>
    let call : SttCall :=
      { url := "https://api.openai.com/v1/audio/transcriptions"
        fileBuffer := f.buffer
        filename := "audio.webm"
        contentType := f.mimetype
        model := "whisper-1"
        authHeader := "Bearer " ++ apiKey }
    match upstream with
    | .success data =>
      match getProp data "text" with
      | .ok t => ([call], ⟨200, jsonBody [("transcription", t)]⟩)
      | .error msg =>
        ([call], ⟨500, jsonBody [("error", .str "Failed to transcribe audio."),
                                 ("details", .str msg)]⟩)
    | .httpError s d =>
      ([call], ⟨500, jsonBody [("error", .str "Failed to transcribe audio."),
                               ("details", failureDetails (.httpError s d) "")]⟩)
    | .networkError m =>
      ([call], ⟨500, jsonBody [("error", .str "Failed to transcribe audio."),
                               ("details", failureDetails (.networkError m) "")]⟩)

/-- Extraction `openaiResponse.data.choices[0].message.content`, each step
able to throw as in JS. -/
def extractAnswer (data : JsValue) : Except String JsValue := do
  let choices ← getProp data "choices"
  let c0 ← getIndex choices 0
  let msg ← getProp c0 "message"
  getProp msg "content"

/-- `app.post('/api/openai', ...)` from src/server.js, as a function of
the request and the outcome of the single upstream call. -/
def openaiHandler (apiKey : String) (req : OpenAiRequest) (upstream : AxiosOutcome) :
    List ChatCall × HttpResponse :=
  let question := req.body.getField "question"
  if !truthy question then
    ([], ⟨400, .obj [("error", .str "No question provided.")]⟩)
  else
    let call : ChatCall :=
      { url := "https://api.openai.com/v1/chat/completions"
        model := "gpt-3.5-turbo"
        messages := [⟨"user", question⟩]
        temperature := 7 / 10
        max_tokens := 250
        authHeader := "Bearer " ++ apiKey }
    match upstream with
    | .success data =>
      match extractAnswer data with
      | .ok content => ([call], ⟨200, jsonBody [("answer", content)]⟩)
      | .error msg =>
        ([call], ⟨500, jsonBody [("error", .str "Failed to get answer from AI."),
                                 ("details", .str msg)]⟩)
    | .httpError s d =>
      ([call], ⟨500, jsonBody [("error", .str "Failed to get answer from AI."),
                               ("details", failureDetails (.httpError s d) "")]⟩)
    | .networkError m =>
      ([call], ⟨500, jsonBody [("error", .str "Failed to get answer from AI."),
                               ("details", failureDetails (.networkError m) "")]⟩)

/-- Helper: with a falsy `question`, the handler answers 400 and issues
no outbound call, whatever the upstream outcome would have been. -/
theorem openaiHandler_reject_of_falsy (apiKey : String) (body : JsValue)
    (u : AxiosOutcome) (hq : truthy (body.getField "question") = false) :
    openaiHandler apiKey ⟨body⟩ u =
      ([], ⟨400, .obj [("error", .str "No question provided.")]⟩) := by
  simp [openaiHandler, hq]

/-- Helper: with a truthy `question`, the handler issues exactly the one
outbound chat-completion call built at src/server.js lines 84-98. -/
theorem openaiHandler_calls_of_truthy (apiKey : String) (body : JsValue)
    (u : AxiosOutcome) (hq : truthy (body.getField "question") = true) :
    (openaiHandler apiKey ⟨body⟩ u).1 =
      [{ url := "https://api.openai.com/v1/chat/completions"
         model := "gpt-3.5-turbo"
         messages := [⟨"user", body.getField "question"⟩]
         temperature := 7 / 10
         max_tokens := 250
         authHeader := "Bearer " ++ apiKey }] := by
  cases u with
  | success data =>
    cases hx : extractAnswer data <;> simp [openaiHandler, hq, hx]
  | httpError st d => simp [openaiHandler, hq]
  | networkError m => simp [openaiHandler, hq]

/-- The configuration object passed to the `cors` middleware. -/
structure CorsConfig where
  origin : String
  methods : List String
  allowedHeaders : List String

/-- The cors configuration from src/server.js lines 21-25. -/
def corsConfig : CorsConfig :=
  { origin := "https://voice-ai-frontend-q3c3.onrender.com"
    methods := ["GET", "POST"]
    allowedHeaders := ["Content-Type"] }

/-- Modelled from the spec: the `cors` middleware itself is third-party
code not present in src/; the spec states that cross-origin requests from
an origin other than the configured one are rejected by the transport
layer before reaching handler logic, that only the configured methods are
permitted, and that only the configured request headers are allowed
through.  A cross-origin request is admitted exactly when its origin,
method and requested headers all match the configuration. -/
def corsAllows (cfg : CorsConfig) (origin method : String)
    (requestHeaders : List String) : Bool :=
  origin == cfg.origin && cfg.methods.contains method &&
    requestHeaders.all (fun h => cfg.allowedHeaders.contains h)

/-- C1: if the upstream chat-completion call succeeds and its body yields
message content `s` for the first choice, the gateway responds HTTP 200
with body exactly `{answer: s}`. -/
theorem openai_success_answer (apiKey : String) (body data : JsValue) (s : String)
    (hq : truthy (body.getField "question") = true)
    (hx : extractAnswer data = .ok (.str s)) :
    (openaiHandler apiKey ⟨body⟩ (.success data)).2 =
      ⟨200, .obj [("answer", .str s)]⟩ := by
  simp [openaiHandler, hq, hx, jsonBody, JsValue.isUndefined]

/-- Witness for C1: a concrete upstream body whose first choice has
message content "42" produces HTTP 200 `{answer: "42"}`. -/
theorem openai_success_answer_witness :
    truthy ((JsValue.obj [("question", .str "hi")]).getField "question") = true ∧
    extractAnswer (.obj [("choices", .arr [.obj [("message",
      .obj [("content", .str "42")])]])]) = .ok (.str "42") ∧
    (openaiHandler "k" ⟨.obj [("question", .str "hi")]⟩
      (.success (.obj [("choices", .arr [.obj [("message",
        .obj [("content", .str "42")])]])]))).2 =
      ⟨200, .obj [("answer", .str "42")]⟩ :=
  ⟨rfl, rfl, openai_success_answer "k" _ _ "42" rfl rfl⟩

/-- C2: if the upstream transcription call succeeds returning
`{text: s}`, the gateway responds HTTP 200 with `{transcription: s}`, the
upstream text verbatim. -/
theorem stt_success_transcription (apiKey : String) (f : UploadedFile) (s : String)
    (rest : List (String × JsValue)) :
    (sttHandler apiKey ⟨some f⟩ (.success (.obj (("text", .str s) :: rest)))).2 =
      ⟨200, .obj [("transcription", .str s)]⟩ := by
  simp [sttHandler, getProp, JsValue.getField, lookupField, jsonBody,
    JsValue.isUndefined]

/-- C4: when the `question` field of the request body is falsy (absent,
empty string, null, ...), the response is exactly HTTP 400 with
`{error: "No question provided."}` and no outbound call is issued,
whatever the upstream would have answered. -/
theorem openai_no_question (apiKey : String) (body : JsValue) (u : AxiosOutcome)
    (hq : truthy (body.getField "question") = false) :
    openaiHandler apiKey ⟨body⟩ u =
      ([], ⟨400, .obj [("error", .str "No question provided.")]⟩) :=
  openaiHandler_reject_of_falsy apiKey body u hq

/-- Witness for C4: the three falsy shapes the claim names — absent
field, empty string, and null — each yield HTTP 400 and no outbound
call. -/
theorem openai_no_question_witness :
    (openaiHandler "k" ⟨.obj []⟩ (.networkError "n") =
      ([], ⟨400, .obj [("error", .str "No question provided.")]⟩)) ∧
    (openaiHandler "k" ⟨.obj [("question", .str "")]⟩ (.networkError "n") =
      ([], ⟨400, .obj [("error", .str "No question provided.")]⟩)) ∧
    (openaiHandler "k" ⟨.obj [("question", .null)]⟩ (.networkError "n") =
      ([], ⟨400, .obj [("error", .str "No question provided.")]⟩)) :=
  ⟨openai_no_question "k" _ _ rfl, openai_no_question "k" _ _ rfl,
   openai_no_question "k" _ _ rfl⟩

/-- C5: when no file field named `audio` is present, the response is
exactly HTTP 400 with `{error: "No audio file provided."}` and no
outbound call is issued. -/
theorem stt_no_file (apiKey : String) (u : AxiosOutcome) :
    sttHandler apiKey ⟨none⟩ u =
      ([], ⟨400, .obj [("error", .str "No audio file provided.")]⟩) := by
  simp [sttHandler]

/-- C3: on either endpoint, a failing upstream call (non-2xx status or
network error) yields HTTP 500 with the endpoint's fixed error string and
a `details` field equal to the upstream's structured error body when one
exists, otherwise the local error message; exactly one outbound call was
issued (no retry). -/
theorem upstream_failure_500 (apiKey : String) (f : UploadedFile)
    (body d : JsValue) (st : Nat) (m : String)
    (hq : truthy (body.getField "question") = true)
    (hd : d.isUndefined = false) :
    ((sttHandler apiKey ⟨some f⟩ (.httpError st d)).1.length = 1 ∧
     (sttHandler apiKey ⟨some f⟩ (.httpError st d)).2 =
       ⟨500, .obj [("error", .str "Failed to transcribe audio."), ("details", d)]⟩) ∧
    ((sttHandler apiKey ⟨some f⟩ (.networkError m)).1.length = 1 ∧
     (sttHandler apiKey ⟨some f⟩ (.networkError m)).2 =
       ⟨500, .obj [("error", .str "Failed to transcribe audio."),
                   ("details", .str m)]⟩) ∧
    ((openaiHandler apiKey ⟨body⟩ (.httpError st d)).1.length = 1 ∧
     (openaiHandler apiKey ⟨body⟩ (.httpError st d)).2 =
       ⟨500, .obj [("error", .str "Failed to get answer from AI."),
                   ("details", d)]⟩) ∧
    ((openaiHandler apiKey ⟨body⟩ (.networkError m)).1.length = 1 ∧
     (openaiHandler apiKey ⟨body⟩ (.networkError m)).2 =
       ⟨500, .obj [("error", .str "Failed to get answer from AI."),
                   ("details", .str m)]⟩) := by
  simp only [JsValue.isUndefined] at hd
  refine ⟨⟨?_, ?_⟩, ⟨?_, ?_⟩, ⟨?_, ?_⟩, ⟨?_, ?_⟩⟩ <;>
    simp [sttHandler, openaiHandler, hq, hd, failureDetails, jsonBody,
      JsValue.isUndefined]

/-- Witness for C3: a concrete 401 upstream body and a concrete network
error message surface under `details` with status 500 on both
endpoints. -/
theorem upstream_failure_500_witness :
    truthy ((JsValue.obj [("question", .str "q")]).getField "question") = true ∧
    (JsValue.obj [("code", .num 401)]).isUndefined = false ∧
    (sttHandler "k" ⟨some ⟨[1], "audio/webm"⟩⟩
       (.httpError 401 (.obj [("code", .num 401)]))).2 =
      ⟨500, .obj [("error", .str "Failed to transcribe audio."),
                  ("details", .obj [("code", .num 401)])]⟩ ∧
    (openaiHandler "k" ⟨.obj [("question", .str "q")]⟩ (.networkError "ECONNREFUSED")).2 =
      ⟨500, .obj [("error", .str "Failed to get answer from AI."),
                  ("details", .str "ECONNREFUSED")]⟩ :=
  ⟨rfl, rfl,
   (upstream_failure_500 "k" ⟨[1], "audio/webm"⟩ (.obj [("question", .str "q")])
      (.obj [("code", .num 401)]) 401 "ECONNREFUSED" rfl rfl).1.2,
   (upstream_failure_500 "k" ⟨[1], "audio/webm"⟩ (.obj [("question", .str "q")])
      (.obj [("code", .num 401)]) 401 "ECONNREFUSED" rfl rfl).2.2.2.2⟩

/-- C6: with a present (truthy) question, the gateway issues exactly one
outbound chat-completion call: fixed model "gpt-3.5-turbo", one user-role
message carrying the question, temperature 0.7, max_tokens 250, and a
Bearer credential header. -/
theorem openai_outbound_call (apiKey : String) (body : JsValue) (u : AxiosOutcome)
    (hq : truthy (body.getField "question") = true) :
    (openaiHandler apiKey ⟨body⟩ u).1 =
      [{ url := "https://api.openai.com/v1/chat/completions"
         model := "gpt-3.5-turbo"
         messages := [⟨"user", body.getField "question"⟩]
         temperature := 7 / 10
         max_tokens := 250
         authHeader := "Bearer " ++ apiKey }] :=
  openaiHandler_calls_of_truthy apiKey body u hq

/-- Witness for C6: a concrete question produces exactly that outbound
call shape. -/
theorem openai_outbound_call_witness :
    truthy ((JsValue.obj [("question", .str "why")]).getField "question") = true ∧
    (openaiHandler "k" ⟨.obj [("question", .str "why")]⟩ (.networkError "n")).1 =
      [{ url := "https://api.openai.com/v1/chat/completions"
         model := "gpt-3.5-turbo"
         messages := [⟨"user", .str "why"⟩]
         temperature := 7 / 10
         max_tokens := 250
         authHeader := "Bearer k" }] :=
  ⟨rfl, openai_outbound_call "k" (.obj [("question", .str "why")]) (.networkError "n") rfl⟩

/-- C7: with a file present, the gateway issues exactly one outbound
multipart transcription call: the inbound bytes under field `file` with
filename "audio.webm" and the inbound declared media type, model
"whisper-1", and a Bearer credential header. -/
theorem stt_outbound_call (apiKey : String) (f : UploadedFile) (u : AxiosOutcome) :
    (sttHandler apiKey ⟨some f⟩ u).1 =
      [{ url := "https://api.openai.com/v1/audio/transcriptions"
         fileBuffer := f.buffer
         filename := "audio.webm"
         contentType := f.mimetype
         model := "whisper-1"
         authHeader := "Bearer " ++ apiKey }] := by
  cases u with
  | success data =>
    cases ht : getProp data "text" <;> simp [sttHandler, ht]
  | httpError st d => simp [sttHandler]
  | networkError m => simp [sttHandler]

/-- C8: under the configured cross-origin policy, a request from any
origin other than the single configured one is not admitted; an admitted
request uses only GET or POST; and every request header an admitted
request carries is Content-Type. -/
theorem cors_policy :
    (∀ origin method hs, origin ≠ corsConfig.origin →
       corsAllows corsConfig origin method hs = false) ∧
    (∀ origin method hs, corsAllows corsConfig origin method hs = true →
       method = "GET" ∨ method = "POST") ∧
    (∀ origin method hs h, corsAllows corsConfig origin method hs = true →
       h ∈ hs → h = "Content-Type") := by
  refine ⟨?_, ?_, ?_⟩
  · intro origin method hs hne
    simp [corsAllows, hne]
  · intro origin method hs hallow
    simp [corsAllows, corsConfig] at hallow
    rcases hallow.1.2 with h | h
    · exact Or.inl h
    · exact Or.inr h
  · intro origin method hs h hallow hmem
    simp [corsAllows, corsConfig, List.all_eq_true] at hallow
    exact hallow.2 h hmem

/-- Witness for C8: a concrete foreign origin is refused, and a concrete
admitted request from the configured origin is a POST carrying only
Content-Type. -/
theorem cors_policy_witness :
    corsAllows corsConfig "https://evil.example.com" "POST" ["Content-Type"] = false ∧
    ("POST" = "GET" ∨ "POST" = "POST") :=
  ⟨cors_policy.1 "https://evil.example.com" "POST" ["Content-Type"] (by decide),
   cors_policy.2.1 "https://voice-ai-frontend-q3c3.onrender.com" "POST"
     ["Content-Type"] (by decide)⟩

/-- C9: a 2xx upstream response whose body has no first choice (missing
or empty `choices`) does not crash the handler: the extraction error is
caught and the response is HTTP 500 with the fixed error string and
`details` set to the local error message. -/
theorem openai_empty_choices_500 (apiKey : String) (body data : JsValue)
    (hq : truthy (body.getField "question") = true)
    (hc : data.getField "choices" = .undefined ∨ data.getField "choices" = .arr []) :
    ∃ msg, (openaiHandler apiKey ⟨body⟩ (.success data)).2 =
      ⟨500, .obj [("error", .str "Failed to get answer from AI."),
                  ("details", .str msg)]⟩ := by
  have hx : ∃ m, extractAnswer data = .error m := by
    cases data with
    | undefined => exact ⟨_, rfl⟩
    | null => exact ⟨_, rfl⟩
    | bool b => exact ⟨_, rfl⟩
    | num n => exact ⟨_, rfl⟩
    | str s => exact ⟨_, rfl⟩
    | arr xs => exact ⟨_, rfl⟩
    | obj fs =>
      rcases hc with h | h <;>
        simp only [JsValue.getField] at h <;>
        simp [extractAnswer, getProp, getIndex, JsValue.getField, h, Bind.bind,
          Except.bind]
  obtain ⟨m, hm⟩ := hx
  exact ⟨m, by simp [openaiHandler, hq, hm, jsonBody, JsValue.isUndefined]⟩

/-- Witness for C9: an upstream body with an empty choices list yields
HTTP 500 with the fixed error string and a string `details`. -/
theorem openai_empty_choices_500_witness :
    truthy ((JsValue.obj [("question", .str "hi")]).getField "question") = true ∧
    ((JsValue.obj [("choices", .arr [])]).getField "choices" = .undefined ∨
     (JsValue.obj [("choices", .arr [])]).getField "choices" = .arr []) ∧
    ∃ msg, (openaiHandler "k" ⟨.obj [("question", .str "hi")]⟩
      (.success (.obj [("choices", .arr [])]))).2 =
      ⟨500, .obj [("error", .str "Failed to get answer from AI."),
                  ("details", .str msg)]⟩ :=
  ⟨rfl, Or.inr rfl,
   openai_empty_choices_500 "k" (.obj [("question", .str "hi")])
     (.obj [("choices", .arr [])]) rfl (Or.inr rfl)⟩

/-- C10: the `/api/openai` validation tests only falsiness, not type:
every truthy value passes and is forwarded unchanged as the user message
content, while the falsy values 0 and false are rejected with HTTP 400
and no outbound call, like a missing question. -/
theorem openai_truthiness_not_type :
    (∀ (apiKey : String) (v : JsValue) (u : AxiosOutcome), truthy v = true →
       (openaiHandler apiKey ⟨.obj [("question", v)]⟩ u).1 =
         [{ url := "https://api.openai.com/v1/chat/completions"
            model := "gpt-3.5-turbo"
            messages := [⟨"user", v⟩]
            temperature := 7 / 10
            max_tokens := 250
            authHeader := "Bearer " ++ apiKey }]) ∧
    (∀ (apiKey : String) (u : AxiosOutcome),
       openaiHandler apiKey ⟨.obj [("question", .num 0)]⟩ u =
         ([], ⟨400, .obj [("error", .str "No question provided.")]⟩)) ∧
    (∀ (apiKey : String) (u : AxiosOutcome),
       openaiHandler apiKey ⟨.obj [("question", .bool false)]⟩ u =
         ([], ⟨400, .obj [("error", .str "No question provided.")]⟩)) := by
  refine ⟨?_, ?_, ?_⟩
  · intro apiKey v u hv
    have hq : truthy ((JsValue.obj [("question", v)]).getField "question") = true := by
      simpa [JsValue.getField, lookupField] using hv
    exact openaiHandler_calls_of_truthy apiKey (.obj [("question", v)]) u hq
  · intro apiKey u
    exact openaiHandler_reject_of_falsy apiKey _ u rfl
  · intro apiKey u
    exact openaiHandler_reject_of_falsy apiKey _ u rfl

/-- Witness for C10: the truthy non-string values 5 and `{}` pass
validation and are forwarded as the message content; 0 and false are
rejected with HTTP 400. -/
theorem openai_truthiness_not_type_witness :
    ((openaiHandler "k" ⟨.obj [("question", .num 5)]⟩ (.networkError "n")).1 =
       [{ url := "https://api.openai.com/v1/chat/completions"
          model := "gpt-3.5-turbo"
          messages := [⟨"user", .num 5⟩]
          temperature := 7 / 10
          max_tokens := 250
          authHeader := "Bearer k" }]) ∧
    ((openaiHandler "k" ⟨.obj [("question", .obj [])]⟩ (.networkError "n")).1 =
       [{ url := "https://api.openai.com/v1/chat/completions"
          model := "gpt-3.5-turbo"
          messages := [⟨"user", .obj []⟩]
          temperature := 7 / 10
          max_tokens := 250
          authHeader := "Bearer k" }]) ∧
    (openaiHandler "k" ⟨.obj [("question", .num 0)]⟩ (.networkError "n") =
       ([], ⟨400, .obj [("error", .str "No question provided.")]⟩)) ∧
    (openaiHandler "k" ⟨.obj [("question", .bool false)]⟩ (.networkError "n") =
       ([], ⟨400, .obj [("error", .str "No question provided.")]⟩)) :=
  ⟨openai_truthiness_not_type.1 "k" (.num 5) (.networkError "n") rfl,
   openai_truthiness_not_type.1 "k" (.obj []) (.networkError "n") rfl,
   openai_truthiness_not_type.2.1 "k" (.networkError "n"),
   openai_truthiness_not_type.2.2 "k" (.networkError "n")⟩

end VoiceAI
